import Mathlib

/-!
Shallow embedding of the car-reliability prediction pipeline
(feature engineering, sentiment scoring, cost projection, maintenance
timeline, risk banding, inference, complaint pattern mining) together
with theorems settling the specification claims.

Numeric convention: Python floats are embedded as exact rationals.
Python round(x, 2) is embedded as decimal round-half-to-even on the
value scaled by 100.
-/

namespace CarReliability

/-- Round a rational to the nearest integer, halves to the even integer,
matching the semantics of Python's round on an exactly representable value. -/
def roundHalfEven (y : ℚ) : ℤ :=
  if Int.fract y < 1/2 then ⌊y⌋
  else if 1/2 < Int.fract y then ⌊y⌋ + 1
  else if Even ⌊y⌋ then ⌊y⌋ else ⌊y⌋ + 1

/-- Embedding of Python round(x, 2): round to two decimal places. -/
def round2 (q : ℚ) : ℚ := (roundHalfEven (q * 100) : ℚ) / 100

/-- Embedding of Python str.strip(chars): remove the given characters from
both ends of the string. -/
def pyStrip (chars : List Char) (s : String) : String :=
  ⟨((s.data.dropWhile (· ∈ chars)).reverse.dropWhile (· ∈ chars)).reverse⟩

/-- Embedding of Python str.lower() on the character list of a string. -/
def pyLower (s : String) : String :=
  ⟨s.data.map Char.toLower⟩

/-- Helper for pySplit: split a character list on whitespace runs,
accumulating the current (reversed) token. -/
def splitWSAux : List Char → List Char → List (List Char)
  | [], acc => if acc.isEmpty then [] else [acc.reverse]
  | c :: cs, acc =>
    if c.isWhitespace then
      (if acc.isEmpty then splitWSAux cs [] else acc.reverse :: splitWSAux cs [])
    else splitWSAux cs (c :: acc)

/-- Embedding of Python str.split() with no argument: split on whitespace
runs and drop empty pieces. -/
def pySplit (s : String) : List String :=
  (splitWSAux s.data []).map (fun l => ⟨l⟩)

/-! ## src/nlp/sentiment.py -/

/-- Fixed positive-word lexicon (POSITIVE_WORDS in src/nlp/sentiment.py). -/
def POSITIVE_WORDS : Finset String :=
  {"reliable", "smooth", "satisfied", "comfortable", "quiet", "refined",
   "responsive"}

/-- Fixed negative-word lexicon (NEGATIVE_WORDS in src/nlp/sentiment.py). -/
def NEGATIVE_WORDS : Finset String :=
  {"frustrating", "disappointed", "unsafe", "annoying", "expensive", "noisy",
   "rough", "lag", "stall", "failure"}

/-- Normalization applied to one whitespace token in score_text:
strip the punctuation characters . , ! ? from both ends, then lower-case. -/
def normalizeToken (w : String) : String :=
  pyLower (pyStrip ['.', ',', '!', '?'] w)

/-- The set comprehension in score_text: the set of normalized whitespace
tokens of the text. -/
def tokenSet (text : String) : Finset String :=
  ((pySplit text).map normalizeToken).toFinset

/-- Result record of score_text (dataclass SentimentScores). -/
structure SentimentScores where
  positive : ℕ
  negative : ℕ
  net : ℤ
  deriving Repr, DecidableEq

/-- Embedding of score_text in src/nlp/sentiment.py. -/
def score_text (text : String) : SentimentScores :=
  let words := tokenSet text
  let pos := (words ∩ POSITIVE_WORDS).card
  let neg := (words ∩ NEGATIVE_WORDS).card
  { positive := pos, negative := neg, net := (pos : ℤ) - (neg : ℤ) }

/-! ## src/features/preprocess.py -/

/-- Reference year constant (CURRENT_YEAR in src/features/preprocess.py). -/
def CURRENT_YEAR : ℤ := 2024

/-- One raw vehicle record (one row of the dataset, schema of the project).
The training-only outcome label has_mechanical_issue is optional: absent at
inference time. -/
structure Record where
  make : String
  model : String
  year : ℤ
  mileage : ℚ
  avg_trip_length_miles : ℚ
  maintenance_events : ℕ
  past_failures : ℕ
  severity_score : ℚ
  maintenance_cost_last_year : ℚ
  fuel_cost_last_year : ℚ
  complaint_text : String
  maintenance_action : String
  has_mechanical_issue : Option ℚ
  deriving Repr, DecidableEq

/-- A record together with the columns added by engineer_domain_features. -/
structure Engineered extends Record where
  car_age : ℤ
  total_cost_last_year : ℚ
  estimated_next_year_cost : ℚ
  ownership_cost_score : ℚ
  deriving Repr, DecidableEq

/-- Embedding of engineer_domain_features in src/features/preprocess.py,
per row. The pandas expression engineered.get("has_mechanical_issue", 0)
becomes Option.getD 0; avg_trip_length_miles.clip(lower=1) becomes
max with 1. -/
def engineer_domain_features (r : Record) : Engineered :=
  let total_cost_last_year := r.maintenance_cost_last_year + r.fuel_cost_last_year
  { r with
    car_age := CURRENT_YEAR - r.year
    total_cost_last_year := total_cost_last_year
    estimated_next_year_cost :=
      total_cost_last_year * (1.05 + 0.02 * (r.has_mechanical_issue.getD 0))
    ownership_cost_score :=
      total_cost_last_year / max r.avg_trip_length_miles 1 }

/-- Fixed per-action cost table (COST_FACTORS in src/features/preprocess.py). -/
def COST_FACTORS : List (String × ℚ) :=
  [("oil change", 120),
   ("brake pad replacement", 380),
   ("software update", 160),
   ("battery inspection", 90),
   ("tire rotation", 75)]

/-- The row argument of compute_cost_of_ownership and
generate_maintenance_timeline: a pandas Series accessed only through
row.get with defaults, so every consulted field is optional. -/
structure CostRow where
  maintenance_action : Option String
  risk_score : Option ℚ
  maintenance_cost_last_year : Option ℚ
  total_cost_last_year : Option ℚ
  deriving Repr, DecidableEq

/-- COST_FACTORS.get(row.get("maintenance_action", ""), 150). -/
def base_maintenance (row : CostRow) : ℚ :=
  (COST_FACTORS.lookup (row.maintenance_action.getD "")).getD 150

/-- risk_multiplier = 1.0 + 0.35 * row.get("risk_score", 0.2). -/
def risk_multiplier (row : CostRow) : ℚ :=
  1 + 0.35 * (row.risk_score.getD 0.2)

/-- Unrounded maintenance projection:
(row.get("maintenance_cost_last_year", 600) + base_maintenance) * risk_multiplier. -/
def maintenance_projection_raw (row : CostRow) : ℚ :=
  (row.maintenance_cost_last_year.getD 600 + base_maintenance row) * risk_multiplier row

/-- Unrounded fuel projection: (annual_mileage / efficiency_mpg) * fuel_price. -/
def fuel_cost_projection_raw (annual_mileage fuel_price_per_gallon efficiency_mpg : ℚ) : ℚ :=
  (annual_mileage / efficiency_mpg) * fuel_price_per_gallon

/-- Unrounded depreciation: max(500, 0.12 * row.get("total_cost_last_year", 1500)). -/
def depreciation_raw (row : CostRow) : ℚ :=
  max 500 (0.12 * row.total_cost_last_year.getD 1500)

/-- The four monetary figures returned by compute_cost_of_ownership. -/
structure CostProjection where
  maintenance_projection : ℚ
  fuel_cost_projection : ℚ
  depreciation_estimate : ℚ
  total_projection : ℚ
  deriving Repr, DecidableEq

/-- Embedding of compute_cost_of_ownership in src/features/preprocess.py. -/
def compute_cost_of_ownership (row : CostRow)
    (annual_mileage : ℚ := 12000) (fuel_price_per_gallon : ℚ := 3.5)
    (efficiency_mpg : ℚ := 26) : CostProjection :=
  { maintenance_projection := round2 (maintenance_projection_raw row)
    fuel_cost_projection :=
      round2 (fuel_cost_projection_raw annual_mileage fuel_price_per_gallon efficiency_mpg)
    depreciation_estimate := round2 (depreciation_raw row)
    total_projection := round2
      (maintenance_projection_raw row
        + fuel_cost_projection_raw annual_mileage fuel_price_per_gallon efficiency_mpg
        + depreciation_raw row) }

/-- One maintenance milestone. The source emits the timeframe as a string;
here it is encoded as a day count with one month as 30 days, so that the
string "N months" becomes 30 * N and "Next 30 days" becomes 30. -/
structure Milestone where
  timeframe_days : ℕ
  action : String
  deriving Repr, DecidableEq

/-- Embedding of generate_maintenance_timeline in src/features/preprocess.py.
The argument is row.get("risk_score", 0.25); Python int() truncates, which on
the nonnegative values arising here is the floor. -/
def generate_maintenance_timeline (risk_score_col : Option ℚ) : List Milestone :=
  let base_interval : ℕ := 6
  let risk_score := risk_score_col.getD 0.25
  let compression : ℚ := 1 - min (max risk_score 0) 0.95 * 0.4
  let interval_months : ℕ := max 3 (Int.toNat ⌊(base_interval : ℚ) * compression⌋)
  let milestones : List Milestone :=
    [{ timeframe_days := 30 * interval_months,
       action := "Comprehensive inspection & fluid checks" },
     { timeframe_days := 30 * (interval_months * 2),
       action := "Predictive component diagnostics" },
     { timeframe_days := 30 * (interval_months * 3),
       action := "System software updates & alignment" }]
  if risk_score > 0.6 then
    milestones ++ [{ timeframe_days := 30,
                     action := "Schedule reliability assessment with specialist" }]
  else
    milestones

/-! ## src/models/predict.py -/

/-- Embedding of ReliabilityPredictor._to_risk_band. -/
def _to_risk_band (probability : ℚ) : String :=
  if probability ≥ 0.65 then "High"
  else if probability ≥ 0.4 then "Moderate"
  else "Low"

/-- A single-row frame after engineer_domain_features and
append_sentiment_scores, as produced by ReliabilityPredictor._prepare_frame. -/
structure Prepared extends Engineered where
  sentiment_positive : ℕ
  sentiment_negative : ℕ
  sentiment_net : ℤ
  deriving Repr, DecidableEq

/-- Embedding of append_sentiment_scores in src/nlp/sentiment.py composed
with ReliabilityPredictor._prepare_frame, per row. -/
def prepare_frame (r : Record) : Prepared :=
  let e := engineer_domain_features r
  let s := score_text r.complaint_text
  { e with
    sentiment_positive := s.positive
    sentiment_negative := s.negative
    sentiment_net := s.net }

/-- The result dataclass of src/models/predict.py. -/
structure PredictionResult where
  probability : ℚ
  risk_band : String
  cost_projection : CostProjection
  maintenance_timeline : List Milestone
  deriving Repr, DecidableEq

/-- The in-memory state of a ReliabilityPredictor: the pipeline loaded once
at construction. The fitted sklearn pipeline is opaque; its predict_proba on
a prepared single-row frame is an arbitrary but fixed function to ℚ. -/
structure Predictor where
  pipeline : Prepared → ℚ

/-- Embedding of ReliabilityPredictor.predict. The method reads
self.pipeline and mutates nothing on self, so the embedding returns the
result together with the (unchanged) predictor state. The frame row handed
to compute_cost_of_ownership and generate_maintenance_timeline carries the
record's columns plus the freshly assigned risk_score column. -/
def predict (p : Predictor) (record : Record) : PredictionResult × Predictor :=
  let frame := prepare_frame record
  let proba := p.pipeline frame
  let risk_band := _to_risk_band proba
  let row : CostRow :=
    { maintenance_action := some frame.maintenance_action
      risk_score := some proba
      maintenance_cost_last_year := some frame.maintenance_cost_last_year
      total_cost_last_year := some frame.total_cost_last_year }
  ({ probability := proba
     risk_band := risk_band
     cost_projection := compute_cost_of_ownership row
     maintenance_timeline := generate_maintenance_timeline (some proba) }, p)

/-! ## src/nlp/complaint_analysis.py

The mining routines delegate tokenization and counting to sklearn's
CountVectorizer; its documented semantics are embedded here: lower-case the
document, extract maximal runs of word characters of length at least two,
drop English stop words, form the requested n-grams joined by single
spaces, count a term's document frequency as the number of documents it
occurs in, prune terms below min_df, and raise a ValueError when no terms
remain after pruning. -/

/-- Split a character list into the maximal runs of characters on which the
predicate is false, dropping empty runs. -/
def splitRunsAux (p : Char → Bool) : List Char → List Char → List (List Char)
  | [], acc => if acc.isEmpty then [] else [acc.reverse]
  | c :: cs, acc =>
    if p c then
      (if acc.isEmpty then splitRunsAux p cs [] else acc.reverse :: splitRunsAux p cs [])
    else splitRunsAux p cs (c :: acc)

/-- Fixed English stop-word list of sklearn (frozen configuration data;
abbreviated to the common words — no settled claim depends on the exact
membership, only on the list being fixed). -/
def ENGLISH_STOP_WORDS : List String :=
  ["a", "about", "above", "after", "again", "all", "am", "an", "and", "any",
   "are", "as", "at", "be", "because", "been", "before", "below", "between",
   "both", "but", "by", "can", "did", "do", "does", "down", "during", "each",
   "few", "for", "from", "further", "had", "has", "have", "he", "her", "here",
   "his", "how", "i", "if", "in", "into", "is", "it", "its", "just", "me",
   "more", "most", "my", "no", "nor", "not", "now", "of", "off", "on", "once",
   "only", "or", "other", "our", "out", "over", "own", "same", "she", "so",
   "some", "such", "than", "that", "the", "their", "them", "then", "there",
   "these", "they", "this", "those", "through", "to", "too", "under", "until",
   "up", "very", "was", "we", "were", "what", "when", "where", "which",
   "while", "who", "whom", "why", "will", "with", "you", "your"]

/-- CountVectorizer token extraction: on the lower-cased document, maximal
runs of word characters (alphanumeric or underscore) of length at least 2,
with stop words removed. -/
def cvTokenize (doc : String) : List String :=
  (((splitRunsAux (fun c => !(c.isAlphanum || c = '_')) (pyLower doc).data []).map
      (fun l => (⟨l⟩ : String))).filter (fun w => 2 ≤ w.length)).filter
    (fun w => w ∉ ENGLISH_STOP_WORDS)

/-- Join words with single spaces (the separator CountVectorizer uses when
emitting an n-gram as one term). -/
def joinWords : List String → String
  | [] => ""
  | [w] => w
  | w :: ws => ⟨w.data ++ ' ' :: (joinWords ws).data⟩

/-- All contiguous n-grams of the given length over a token list. -/
def ngramsOfLen (n : ℕ) (toks : List String) : List String :=
  (List.range (toks.length + 1 - n)).map (fun i => joinWords ((toks.drop i).take n))

/-- All terms CountVectorizer extracts from one document for the n-gram
range lo..hi (with multiplicity). -/
def docTerms (lo hi : ℕ) (doc : String) : List String :=
  let toks := cvTokenize doc
  ((List.range (hi + 1 - lo)).map (fun k => ngramsOfLen (lo + k) toks)).flatten

/-- Document frequency of a term over a corpus: the number of documents in
which the term occurs at least once. -/
def docFreq (lo hi : ℕ) (docs : List String) (t : String) : ℕ :=
  (docs.filter (fun d => t ∈ docTerms lo hi d)).length

/-- Lexicographic comparison of character lists (the order of
CountVectorizer.get_feature_names_out on the learned vocabulary). -/
def lexLE : List Char → List Char → Bool
  | [], _ => true
  | _ :: _, [] => false
  | a :: as, b :: bs => if a < b then true else if b < a then false else lexLE as bs

/-- Embedding of _tokenize_phrases in src/nlp/complaint_analysis.py with
min_df = 2 as in the source: the per-term corpus counts in vocabulary order,
or the ValueError CountVectorizer raises when pruning leaves no terms. -/
def _tokenize_phrases (docs : List String) (lo hi : ℕ) :
    Except String (List (String × ℕ)) :=
  let allTerms := (docs.map (docTerms lo hi)).flatten
  let vocab := allTerms.dedup.filter (fun t => 2 ≤ docFreq lo hi docs t)
  if vocab.isEmpty then
    .error "After pruning, no terms remain. Try a lower min_df or a higher max_df."
  else
    .ok ((vocab.mergeSort (fun a b => lexLE a.data b.data)).map
      (fun t => (t, allTerms.count t)))

/-- Rational surrogate for the float square root that numpy's std computes:
exact to six decimal places. No settled claim depends on the success-path
weighted scores this feeds. -/
def ratSqrt (q : ℚ) : ℚ :=
  if q ≤ 0 then 0
  else (Nat.sqrt (q.num.toNat * q.den * 10 ^ 12) : ℚ) / ((q.den : ℚ) * 10 ^ 6)

/-- Mean of a list of rationals (numpy mean). -/
def npMean (xs : List ℚ) : ℚ := xs.sum / xs.length

/-- Population standard deviation (numpy std with ddof = 0). -/
def npStd (xs : List ℚ) : ℚ :=
  ratSqrt (npMean (xs.map (fun x => (x - npMean xs) ^ 2)))

/-- Embedding of identify_common_failure_patterns in
src/nlp/complaint_analysis.py. A dataframe row is the pair of its
complaint_text and severity_score columns. Counter.most_common is a stable
descending sort by value over insertion order, which is vocabulary order. -/
def identify_common_failure_patterns (df : List (String × ℚ)) (top_n : ℕ := 8) :
    Except String (List (String × ℚ)) :=
  if df.isEmpty then .ok []
  else
    match _tokenize_phrases (df.map Prod.fst) 2 3 with
    | .error e => .error e
    | .ok counter =>
      let severity := df.map Prod.snd
      let w := npMean severity / max (npStd severity) 0.5
      let weighted := counter.map (fun tc => (tc.1, (tc.2 : ℚ) * w))
      let most_common := (weighted.mergeSort (fun a b => decide (b.2 ≤ a.2))).take top_n
      .ok (most_common.map (fun ts => (ts.1, round2 ts.2)))

/-! ## Rounding lemmas -/

theorem floor_le_roundHalfEven (y : ℚ) : ⌊y⌋ ≤ roundHalfEven y := by
  unfold roundHalfEven
  split_ifs <;> omega

theorem abs_roundHalfEven_sub_le (y : ℚ) : |(roundHalfEven y : ℚ) - y| ≤ 1/2 := by
  have h0 : 0 ≤ Int.fract y := Int.fract_nonneg y
  have h1 : Int.fract y < 1 := Int.fract_lt_one y
  have hfr : Int.fract y = y - (⌊y⌋ : ℚ) := rfl
  unfold roundHalfEven
  split_ifs with hlt hgt heven <;> push_cast <;> rw [abs_le] <;>
    constructor <;> linarith

theorem abs_round2_sub_le (x : ℚ) : |round2 x - x| ≤ 1/200 := by
  have h := abs_roundHalfEven_sub_le (x * 100)
  unfold round2
  have heq : (roundHalfEven (x * 100) : ℚ) / 100 - x
      = ((roundHalfEven (x * 100) : ℚ) - x * 100) / 100 := by ring
  rw [heq, abs_div]
  have h100 : |(100 : ℚ)| = 100 := by norm_num
  rw [h100]
  linarith

theorem le_round2_of_le {c x : ℚ} (hc : c * 100 = ((⌊c * 100⌋ : ℤ) : ℚ))
    (h : c ≤ x) : c ≤ round2 x := by
  have h1 : ⌊c * 100⌋ ≤ ⌊x * 100⌋ := by
    apply Int.floor_le_floor
    nlinarith
  have h2 := floor_le_roundHalfEven (x * 100)
  have h3 : (⌊c * 100⌋ : ℚ) ≤ (roundHalfEven (x * 100) : ℚ) := by
    exact_mod_cast le_trans h1 h2
  unfold round2
  rw [← hc] at h3
  linarith

/-! ## Claim theorems -/

/-- C1: for every probability p, the risk band returned by the inference
engine is High iff p is at least 0.65, Moderate iff p is at least 0.40 and
below 0.65, and Low iff p is below 0.40; the thresholds are the fixed
constants of _to_risk_band. -/
theorem risk_band_thresholds (p : ℚ) :
    (_to_risk_band p = "High" ↔ 0.65 ≤ p)
    ∧ (_to_risk_band p = "Moderate" ↔ 0.4 ≤ p ∧ p < 0.65)
    ∧ (_to_risk_band p = "Low" ↔ p < 0.4) := by
  unfold _to_risk_band
  split_ifs with h1 h2
  · rw [ge_iff_le] at h1
    refine ⟨by simp [h1], ?_, ?_⟩
    · simp only [show ("High" : String) ≠ "Moderate" from by decide, false_iff]
      rintro ⟨-, hlt⟩
      linarith
    · simp only [show ("High" : String) ≠ "Low" from by decide, false_iff]
      intro hlt
      linarith
  · rw [ge_iff_le, not_le] at h1
    rw [ge_iff_le] at h2
    refine ⟨?_, by simp [h2, h1], ?_⟩
    · simp only [show ("Moderate" : String) ≠ "High" from by decide, false_iff]
      intro hle
      linarith
    · simp only [show ("Moderate" : String) ≠ "Low" from by decide, false_iff]
      intro hlt
      linarith
  · rw [ge_iff_le, not_le] at h1
    rw [ge_iff_le, not_le] at h2
    refine ⟨?_, ?_, by simp [h2]⟩
    · simp only [show ("Low" : String) ≠ "High" from by decide, false_iff]
      intro hle
      linarith
    · simp only [show ("Low" : String) ≠ "Moderate" from by decide, false_iff]
      rintro ⟨hle, -⟩
      linarith

/-- Witness for C1 at the spec's probe probabilities 0.3, 0.4, 0.65, 0.9
and the immediate boundary neighbours. -/
theorem risk_band_thresholds_witness :
    _to_risk_band 0.3 = "Low"
    ∧ _to_risk_band 0.4 = "Moderate"
    ∧ _to_risk_band 0.65 = "High"
    ∧ _to_risk_band 0.9 = "High"
    ∧ _to_risk_band 0.3999 = "Low"
    ∧ _to_risk_band 0.6499 = "Moderate" :=
  ⟨(risk_band_thresholds 0.3).2.2.mpr (by norm_num),
   (risk_band_thresholds 0.4).2.1.mpr (by norm_num),
   (risk_band_thresholds 0.65).1.mpr (by norm_num),
   (risk_band_thresholds 0.9).1.mpr (by norm_num),
   (risk_band_thresholds 0.3999).2.2.mpr (by norm_num),
   (risk_band_thresholds 0.6499).2.1.mpr (by norm_num)⟩

/-- C7: the ownership-cost score is the prior-year total cost divided by the
average trip length floored at 1, so the denominator is never below 1 no
matter how small (or negative) the supplied trip length is. -/
theorem ownership_cost_denominator (r : Record) :
    (engineer_domain_features r).ownership_cost_score
      = (engineer_domain_features r).total_cost_last_year
        / max r.avg_trip_length_miles 1
    ∧ 1 ≤ max r.avg_trip_length_miles 1 :=
  ⟨rfl, le_max_right _ _⟩

/-- C8: when the outcome label column is absent the estimated next-year cost
is the prior-year total cost times the baseline inflation factor 1.05 alone
(correction term exactly zero), and the computation does not fail; when the
label is present, a penalty of 0.02 times the label times the total cost is
added. -/
theorem next_year_cost_label_handling (r : Record) :
    (r.has_mechanical_issue = none →
      (engineer_domain_features r).estimated_next_year_cost
        = (engineer_domain_features r).total_cost_last_year * 1.05)
    ∧ (∀ y, r.has_mechanical_issue = some y →
      (engineer_domain_features r).estimated_next_year_cost
        = (engineer_domain_features r).total_cost_last_year * 1.05
          + 0.02 * y * (engineer_domain_features r).total_cost_last_year) := by
  constructor
  · intro h
    simp only [engineer_domain_features, h, Option.getD_none]
    ring
  · intro y h
    simp only [engineer_domain_features, h, Option.getD_some]
    ring

/-- Sample record used to witness hypotheses of claim theorems. -/
def sampleRecord : Record :=
  { make := "Toyota", model := "Camry", year := 2018, mileage := 60000,
    avg_trip_length_miles := 12, maintenance_events := 2, past_failures := 1,
    severity_score := 3.5, maintenance_cost_last_year := 1000,
    fuel_cost_last_year := 500, complaint_text := "",
    maintenance_action := "oil change", has_mechanical_issue := none }

/-- Witness for C8 at a concrete inference-time record (label absent):
total cost 1500 projects to 1575. -/
theorem next_year_cost_label_handling_witness :
    sampleRecord.has_mechanical_issue = none
    ∧ (engineer_domain_features sampleRecord).estimated_next_year_cost = 1575 := by
  refine ⟨rfl, ?_⟩
  have h := (next_year_cost_label_handling sampleRecord).1 rfl
  rw [h]
  norm_num [engineer_domain_features, sampleRecord]

/-- C9: calling predict twice with an identical record and an unchanged
trained pipeline yields identical prediction results (and the predictor
state is not mutated by a call). -/
theorem predict_idempotent (p : Predictor) (r : Record) :
    (predict p r).2 = p
    ∧ (predict (predict p r).2 r).1 = (predict p r).1 :=
  ⟨rfl, rfl⟩

/-- C10: the sentiment scorer counts each distinct normalized word at most
once per text (the score depends only on the set of normalized tokens), and
the positive and negative counts are bounded by the lexicon sizes 7 and 10. -/
theorem sentiment_dedup_and_bounds (t₁ t₂ : String) :
    (tokenSet t₁ = tokenSet t₂ → score_text t₁ = score_text t₂)
    ∧ (score_text t₁).positive ≤ 7
    ∧ (score_text t₁).negative ≤ 10 := by
  have hp : POSITIVE_WORDS.card = 7 := by decide
  have hn : NEGATIVE_WORDS.card = 10 := by decide
  refine ⟨fun h => by simp only [score_text, h], ?_, ?_⟩
  · calc (score_text t₁).positive
        = (tokenSet t₁ ∩ POSITIVE_WORDS).card := rfl
      _ ≤ POSITIVE_WORDS.card := Finset.card_le_card Finset.inter_subset_right
      _ = 7 := hp
  · calc (score_text t₁).negative
        = (tokenSet t₁ ∩ NEGATIVE_WORDS).card := rfl
      _ ≤ NEGATIVE_WORDS.card := Finset.card_le_card Finset.inter_subset_right
      _ = 10 := hn

/-- Witness for C10: a negative word repeated three times, once with
trailing punctuation, scores the same as a single occurrence. -/
theorem sentiment_dedup_witness :
    tokenSet "annoying annoying annoying!" = tokenSet "annoying"
    ∧ score_text "annoying annoying annoying!" = score_text "annoying"
    ∧ score_text "annoying" = { positive := 0, negative := 1, net := -1 } := by
  have hset : tokenSet "annoying annoying annoying!" = tokenSet "annoying" := by
    decide
  exact ⟨hset, (sentiment_dedup_and_bounds _ _).1 hset, by decide⟩

/-- Token normalization as claim C6 words it: lower-case and strip trailing
(only) punctuation from the set . , ! ? . -/
def claimNormalizeToken (w : String) : String :=
  pyLower ⟨(w.data.reverse.dropWhile (· ∈ ['.', ',', '!', '?'])).reverse⟩

/-- Sentiment scoring as claim C6 words it: identical to score_text except
that only trailing punctuation is stripped from each token. -/
def claim_score_text (text : String) : SentimentScores :=
  let words := ((pySplit text).map claimNormalizeToken).toFinset
  let pos := (words ∩ POSITIVE_WORDS).card
  let neg := (words ∩ NEGATIVE_WORDS).card
  { positive := pos, negative := neg, net := (pos : ℤ) - (neg : ℤ) }

/-- Counterexample to C6 as stated: on a token with leading punctuation the
code (which strips punctuation from both ends) finds the negative word, while
the trailing-strip normalization the claim describes finds nothing. -/
theorem score_text_strip_counterexample :
    score_text "!annoying" = { positive := 0, negative := 1, net := -1 }
    ∧ claim_score_text "!annoying" = { positive := 0, negative := 0, net := 0 }
    ∧ score_text "!annoying" ≠ claim_score_text "!annoying" := by
  refine ⟨by decide, by decide, by decide⟩

/-- C6 amended: score_text tokenizes on whitespace, normalizes each token by
stripping punctuation . , ! ? from both ends (not only trailing) and
lower-casing, and counts the distinct normalized tokens lying in the disjoint
fixed lexicons, returning positive count, negative count and their
difference; a text whose tokens normalize to the empty string (empty or
punctuation-only text) yields (0, 0, 0). -/
theorem score_text_contract (text : String) :
    (score_text text).positive = (tokenSet text ∩ POSITIVE_WORDS).card
    ∧ (score_text text).negative = (tokenSet text ∩ NEGATIVE_WORDS).card
    ∧ (score_text text).net
        = ((score_text text).positive : ℤ) - ((score_text text).negative : ℤ)
    ∧ POSITIVE_WORDS ∩ NEGATIVE_WORDS = ∅
    ∧ ((∀ w ∈ tokenSet text, w = "") →
        score_text text = { positive := 0, negative := 0, net := 0 }) := by
  refine ⟨rfl, rfl, rfl, by decide, ?_⟩
  intro h
  have hp : tokenSet text ∩ POSITIVE_WORDS = ∅ := by
    rw [Finset.eq_empty_iff_forall_not_mem]
    intro w hw
    rcases Finset.mem_inter.mp hw with ⟨h1, h2⟩
    rw [h w h1] at h2
    revert h2
    decide
  have hn : tokenSet text ∩ NEGATIVE_WORDS = ∅ := by
    rw [Finset.eq_empty_iff_forall_not_mem]
    intro w hw
    rcases Finset.mem_inter.mp hw with ⟨h1, h2⟩
    rw [h w h1] at h2
    revert h2
    decide
  simp only [score_text, hp, hn, Finset.card_empty]
  rfl

/-- Witness for C6: punctuation-only text scores (0, 0, 0) through the
contract theorem, and the concrete spec scenario scores (2, 1, 1). -/
theorem score_text_contract_witness :
    score_text ".,!? .." = { positive := 0, negative := 0, net := 0 }
    ∧ score_text "This car is reliable and smooth but the battery is annoying"
        = { positive := 2, negative := 1, net := 1 } := by
  constructor
  · exact (score_text_contract ".,!? ..").2.2.2.2 (by decide)
  · decide

/-- Counterexample to C2 as stated: at risk score 0.7 the timeline is the
four milestones at 120, 240, 360 and 30 days in that emission order, so the
milestones are not in strictly increasing timeframe order and the list is
not nearest-first (the 30-day entry comes last). -/
theorem maintenance_timeline_not_nearest_first :
    generate_maintenance_timeline (some 0.7)
      = [{ timeframe_days := 120, action := "Comprehensive inspection & fluid checks" },
         { timeframe_days := 240, action := "Predictive component diagnostics" },
         { timeframe_days := 360, action := "System software updates & alignment" },
         { timeframe_days := 30,
           action := "Schedule reliability assessment with specialist" }]
    ∧ ¬ List.Chain' (fun a b => a.timeframe_days < b.timeframe_days)
        (generate_maintenance_timeline (some 0.7)) := by
  have hev : generate_maintenance_timeline (some 0.7)
      = [{ timeframe_days := 120, action := "Comprehensive inspection & fluid checks" },
         { timeframe_days := 240, action := "Predictive component diagnostics" },
         { timeframe_days := 360, action := "System software updates & alignment" },
         { timeframe_days := 30,
           action := "Schedule reliability assessment with specialist" }] := by
    norm_num [generate_maintenance_timeline, min_def, max_def]
    decide
  refine ⟨hev, ?_⟩
  rw [hev]
  simp [List.chain'_cons]

/-- C2 amended: the timeline has exactly 4 milestones when the risk score
exceeds 0.6 and exactly 3 otherwise; the three interval milestones are in
strictly increasing timeframe order; but the conditional fourth milestone
(the 30-day specialist assessment) is appended at the end of the list even
though its timeframe is the nearest, so the 4-entry timeline is not emitted
nearest-first. -/
theorem maintenance_timeline_shape (risk : Option ℚ) :
    ((generate_maintenance_timeline risk).length
        = if risk.getD 0.25 > 0.6 then 4 else 3)
    ∧ List.Chain' (fun a b => a.timeframe_days < b.timeframe_days)
        ((generate_maintenance_timeline risk).take 3)
    ∧ (risk.getD 0.25 > 0.6 →
        ∃ m, (generate_maintenance_timeline risk).getLast? = some m
          ∧ m.timeframe_days = 30
          ∧ m.action = "Schedule reliability assessment with specialist"
          ∧ ∀ m' ∈ (generate_maintenance_timeline risk).take 3,
              m.timeframe_days < m'.timeframe_days) := by
  unfold generate_maintenance_timeline
  set k := max 3
      (Int.toNat ⌊(6 : ℚ) * (1 - min (max (risk.getD 0.25) 0) 0.95 * 0.4)⌋) with hk
  have h3 : 3 ≤ k := le_max_left _ _
  by_cases h : risk.getD 0.25 > 0.6
  · simp only [h, if_pos, if_true]
    refine ⟨by simp, ?_, ?_⟩
    · simp [List.take, List.chain'_cons]
    · intro _
      refine ⟨⟨30, "Schedule reliability assessment with specialist"⟩, ?_, rfl, rfl, ?_⟩
      · simp
      · intro m' hm'
        simp [List.take] at hm'
        rcases hm' with h1 | h1 | h1 <;> subst h1 <;> simp <;> omega
  · simp only [h, if_false]
    refine ⟨by simp [h], ?_, ?_⟩
    · simp [List.take, List.chain'_cons]
    · exact fun hc => hc.elim

/-- Witness for C2: at risk score 0.7 the amended theorem yields the 4-entry
timeline whose appended last milestone is the 30-day one. -/
theorem maintenance_timeline_shape_witness :
    (generate_maintenance_timeline (some 0.7)).length = 4
    ∧ ∃ m, (generate_maintenance_timeline (some 0.7)).getLast? = some m
        ∧ m.timeframe_days = 30 := by
  have h07 : (some (0.7:ℚ)).getD 0.25 > 0.6 := by norm_num
  have h := maintenance_timeline_shape (some 0.7)
  refine ⟨?_, ?_⟩
  · rw [h.1, if_pos h07]
  · rcases h.2.2 h07 with ⟨m, hm, hd, -, -⟩
    exact ⟨m, hm, hd⟩

/-- Concrete row for the C3 counterexample. -/
def costRow3 : CostRow :=
  { maintenance_action := none, risk_score := some 0,
    maintenance_cost_last_year := some 600.004,
    total_cost_last_year := some 4166.7 }

/-- Counterexample to C3 as stated: on costRow3 the reported total (the
rounding of the exact sum) is 2865.39 while the sum of the three reported
rounded figures is 2865.38, so the total does not equal the sum of the
three constituent (rounded) parts. -/
theorem cost_projection_parts_sum_counterexample :
    (compute_cost_of_ownership costRow3).total_projection = 2865.39
    ∧ (compute_cost_of_ownership costRow3).maintenance_projection
        + (compute_cost_of_ownership costRow3).fuel_cost_projection
        + (compute_cost_of_ownership costRow3).depreciation_estimate = 2865.38
    ∧ (compute_cost_of_ownership costRow3).total_projection
        ≠ (compute_cost_of_ownership costRow3).maintenance_projection
          + (compute_cost_of_ownership costRow3).fuel_cost_projection
          + (compute_cost_of_ownership costRow3).depreciation_estimate := by
  have hb : base_maintenance costRow3 = 150 := by
    unfold base_maintenance costRow3
    rw [show COST_FACTORS.lookup ((none : Option String).getD "") = none from by decide]
    rfl
  have hm : maintenance_projection_raw costRow3 = 750.004 := by
    unfold maintenance_projection_raw risk_multiplier
    rw [hb]
    norm_num [costRow3]
  have hd : depreciation_raw costRow3 = 500.004 := by
    unfold depreciation_raw
    norm_num [costRow3, max_def]
  have h1 : (compute_cost_of_ownership costRow3).total_projection = 2865.39 := by
    simp only [compute_cost_of_ownership, hm, hd, fuel_cost_projection_raw]
    norm_num [round2, roundHalfEven, Int.fract]
  have h2 : (compute_cost_of_ownership costRow3).maintenance_projection
      + (compute_cost_of_ownership costRow3).fuel_cost_projection
      + (compute_cost_of_ownership costRow3).depreciation_estimate = 2865.38 := by
    simp only [compute_cost_of_ownership, hm, hd, fuel_cost_projection_raw]
    norm_num [round2, roundHalfEven, Int.fract]
  refine ⟨h1, h2, ?_⟩
  rw [h1, h2]
  norm_num

/-- C3 amended: the reported total is the exact (unrounded) sum of the three
constituent parts rounded to two decimals, each reported part is itself
rounded to two decimals, the total can therefore differ from the sum of the
three reported parts by at most 0.02, and the reported depreciation is never
below 500. -/
theorem cost_projection_total (row : CostRow) (am fp eff : ℚ) :
    (compute_cost_of_ownership row am fp eff).total_projection
      = round2 (maintenance_projection_raw row
          + fuel_cost_projection_raw am fp eff + depreciation_raw row)
    ∧ (compute_cost_of_ownership row am fp eff).maintenance_projection
        = round2 (maintenance_projection_raw row)
    ∧ (compute_cost_of_ownership row am fp eff).fuel_cost_projection
        = round2 (fuel_cost_projection_raw am fp eff)
    ∧ (compute_cost_of_ownership row am fp eff).depreciation_estimate
        = round2 (depreciation_raw row)
    ∧ 500 ≤ (compute_cost_of_ownership row am fp eff).depreciation_estimate
    ∧ |(compute_cost_of_ownership row am fp eff).total_projection
        - ((compute_cost_of_ownership row am fp eff).maintenance_projection
          + (compute_cost_of_ownership row am fp eff).fuel_cost_projection
          + (compute_cost_of_ownership row am fp eff).depreciation_estimate)|
        ≤ 1/50 := by
  refine ⟨rfl, rfl, rfl, rfl, ?_, ?_⟩
  · apply le_round2_of_le (by norm_num)
    exact le_max_left _ _
  · have hm := abs_round2_sub_le (maintenance_projection_raw row)
    have hf := abs_round2_sub_le (fuel_cost_projection_raw am fp eff)
    have hd := abs_round2_sub_le (depreciation_raw row)
    have ht := abs_round2_sub_le (maintenance_projection_raw row
      + fuel_cost_projection_raw am fp eff + depreciation_raw row)
    simp only [compute_cost_of_ownership]
    rw [abs_le] at hm hf hd ht ⊢
    constructor <;> linarith

/-- Concrete row for the C4 counterexample: an unrecognized maintenance
action and risk score zero. -/
def costRow4 : CostRow :=
  { maintenance_action := some "engine overhaul", risk_score := some 0,
    maintenance_cost_last_year := some 600, total_cost_last_year := some 1500 }

/-- The maintenance projection formula as claim C4 words it: the table base
estimate alone scaled by the risk multiplier. -/
def claimed_maintenance_projection (row : CostRow) : ℚ :=
  base_maintenance row * risk_multiplier row

/-- Counterexample to C4 as stated: on costRow4 the claim's formula gives
150 (unrecognized action, multiplier 1) while the code reports 750, because
the code adds the prior-year maintenance cost to the base before scaling. -/
theorem maintenance_projection_counterexample :
    (compute_cost_of_ownership costRow4).maintenance_projection = 750
    ∧ claimed_maintenance_projection costRow4 = 150
    ∧ (compute_cost_of_ownership costRow4).maintenance_projection
        ≠ claimed_maintenance_projection costRow4 := by
  have hb : base_maintenance costRow4 = 150 := by
    unfold base_maintenance costRow4
    rw [show COST_FACTORS.lookup ((some "engine overhaul").getD "") = none from by decide]
    rfl
  have h1 : (compute_cost_of_ownership costRow4).maintenance_projection = 750 := by
    simp only [compute_cost_of_ownership, maintenance_projection_raw, risk_multiplier, hb]
    norm_num [costRow4, round2, roundHalfEven, Int.fract]
  have h2 : claimed_maintenance_projection costRow4 = 150 := by
    unfold claimed_maintenance_projection risk_multiplier
    rw [hb]
    norm_num [costRow4]
  refine ⟨h1, h2, ?_⟩
  rw [h1, h2]
  norm_num

/-- C4 amended: the maintenance projection equals the prior-year maintenance
cost (default 600 when absent) plus the base estimate looked up from the
fixed per-action cost table (150 for unrecognized actions), scaled by the
risk multiplier 1 + 0.35 * risk_score (risk score defaulting to 0.2 when
absent) and rounded to two decimals. -/
theorem maintenance_projection_formula (row : CostRow) (am fp eff : ℚ) :
    (compute_cost_of_ownership row am fp eff).maintenance_projection
      = round2 ((row.maintenance_cost_last_year.getD 600
          + (COST_FACTORS.lookup (row.maintenance_action.getD "")).getD 150)
          * (1 + 0.35 * row.risk_score.getD 0.2))
    ∧ (COST_FACTORS.lookup (row.maintenance_action.getD "") = none →
        base_maintenance row = 150) := by
  constructor
  · rfl
  · intro h
    unfold base_maintenance
    rw [h]
    rfl

/-- Witness for C4: costRow4's action is not in the cost table, so its base
estimate falls back to 150. -/
theorem maintenance_projection_formula_witness :
    COST_FACTORS.lookup ((costRow4.maintenance_action).getD "") = none
    ∧ base_maintenance costRow4 = 150 := by
  have h : COST_FACTORS.lookup ((costRow4.maintenance_action).getD "") = none := by
    decide
  exact ⟨h, (maintenance_projection_formula costRow4 12000 3.5 26).2 h⟩

/-- No 2- or 3-word phrase of the corpus occurs in at least 2 documents:
every term any document yields has document frequency below the min_df
threshold of 2, so CountVectorizer's pruned vocabulary is empty. -/
def noFrequentPhrase (docs : List String) : Prop :=
  ∀ t ∈ (docs.map (docTerms 2 3)).flatten, docFreq 2 3 docs t < 2

/-- Counterexample to C5 as stated: a non-empty one-document corpus, in
which necessarily no phrase occurs in 2 documents, makes frequent-pattern
extraction raise CountVectorizer's empty-vocabulary ValueError instead of
returning an empty sequence. -/
theorem failure_patterns_single_doc_raises :
    identify_common_failure_patterns [("engine noise problem", 5)]
      = .error "After pruning, no terms remain. Try a lower min_df or a higher max_df." := by
  rfl

/-- C5 amended: frequent-pattern extraction on an empty corpus returns an
empty sequence; on a non-empty corpus in which no 2- or 3-word phrase
occurs in at least 2 documents it raises the empty-vocabulary error rather
than returning an empty sequence. -/
theorem failure_patterns_degenerate_inputs (df : List (String × ℚ)) :
    (df = [] → identify_common_failure_patterns df = .ok [])
    ∧ (df ≠ [] → noFrequentPhrase (df.map Prod.fst) →
        ∃ e, identify_common_failure_patterns df = .error e) := by
  constructor
  · intro h
    subst h
    rfl
  · intro hne hnf
    have hvocab : ((df.map Prod.fst).map (docTerms 2 3)).flatten.dedup.filter
        (fun t => decide (2 ≤ docFreq 2 3 (df.map Prod.fst) t)) = [] := by
      rw [List.filter_eq_nil_iff]
      intro t ht
      have htm : t ∈ ((df.map Prod.fst).map (docTerms 2 3)).flatten :=
        List.dedup_subset _ ht
      have := hnf t htm
      simpa using this
    have hne' : df.isEmpty = false := by
      cases df with
      | nil => exact absurd rfl hne
      | cons a l => rfl
    refine ⟨"After pruning, no terms remain. Try a lower min_df or a higher max_df.", ?_⟩
    unfold identify_common_failure_patterns _tokenize_phrases
    rw [hne']
    simp only [Bool.false_eq_true, if_false, hvocab]
    rfl

/-- Witness for C5: the amended theorem applied to the empty corpus and to
the concrete one-document corpus. -/
theorem failure_patterns_degenerate_witness :
    identify_common_failure_patterns ([] : List (String × ℚ)) = .ok []
    ∧ ∃ e, identify_common_failure_patterns [("engine noise problem", 5)] = .error e := by
  constructor
  · exact (failure_patterns_degenerate_inputs []).1 rfl
  · exact (failure_patterns_degenerate_inputs [("engine noise problem", 5)]).2
      (by simp) (by unfold noFrequentPhrase; decide)

end CarReliability
